import Mathlib

/-!
# A shallow embedding of the diald event-normalization state machine

This file embeds the core of src/main.rs (the dial state machine driven by
the poll loop in main) as executable Lean definitions, and proves properties
of that embedding.

Modelling conventions:

* Timestamps (std::time::Instant) are modelled as Nat milliseconds.
  Instant::duration_since on a monotone clock is Nat subtraction (traces
  always present non-decreasing times; Nat subtraction truncates at 0 the
  same way the comparison duration >= timeout behaves for an earlier now).
* i32 fields are modelled as Int together with wrapping (two's complement)
  arithmetic, written explicitly as wrap32, because release-profile Rust
  arithmetic wraps on overflow.  u32 is Nat with mod 2^32.
* Rust i32 division (/) truncates toward zero: it is Int.tdiv here.
* The field volume has type f64 in the source, but every reachable value of
  it is an exact small integer: it starts at 50.0, is changed only by adding
  the i32 notch count volume_delta and clamping at 0.0 / 100.0, or by an
  inbound MQTT set which clamps an i32 into [0.0, 100.0].  All these f64
  operations are exact on integers of this size (well below 2^53), and
  f64::round on an integral value is the identity.  The embedding therefore
  carries volume as an Int, and models volume.round() as i32 by the value
  itself; this is a bit-exact model of the reachable behaviour.
-/

/-- The three modes of the dial state machine (enum DialMode, src lines
131-136). -/
inductive DialMode
  | Idle
  | Active
  | Backlash
deriving DecidableEq, Repr

/-- An input event as consumed by the event loop: a REL_DIAL relative axis
event carrying an i32 delta, a BTN_0 key event (pressed = value 1), or any
other evdev event (the catch-all arm at src line 533). -/
inductive InputEvent
  | rotate (delta : Int)
  | click (pressed : Bool)
  | other
deriving DecidableEq, Repr

/-- An observable semantic output of one processing step: a volume print /
MQTT publish (src lines 509-521), or a push of the "click" label into the
event batcher (src line 530). -/
inductive Emission
  | volumePrint (v : Int)
  | clickPush
deriving DecidableEq, Repr

/-- struct DialState (src lines 148-160). -/
structure DialState where
  mode : DialMode
  last_event_at : Option Nat
  volume : Int
  raw_accumulator : Int
  last_print_at : Option Nat
  last_printed_volume : Int
  clicking : Bool
  last_raw_direction : Int
  consistent_direction_count : Nat
  pre_backlash_direction : Int
  backlash_accumulator : Int
deriving DecidableEq, Repr

/-- Result of processing one event: the new state, the number of haptic
feedback triggers fired (calls to haptic.send_chunky), and the semantic
emissions produced. -/
structure StepOut where
  state : DialState
  buzzes : Nat
  emits : List Emission
deriving DecidableEq, Repr

/-- const BACKLASH_THRESHOLD (src line 162): events needed to exit backlash
mode. -/
def BACKLASH_THRESHOLD : Nat := 25

/-- const BACKLASH_CANCEL_THRESHOLD (src line 163): events to cancel a
false-positive backlash. -/
def BACKLASH_CANCEL_THRESHOLD : Nat := BACKLASH_THRESHOLD / 5

/-- idle_timeout (src line 335): 30 s, in milliseconds. -/
def IDLE_TIMEOUT : Nat := 30000

/-- Two's-complement wrap into the i32 range, the release-profile semantics
of Rust i32 arithmetic. -/
def wrap32 (n : Int) : Int := Int.emod (n + 2 ^ 31) (2 ^ 32) - 2 ^ 31

/-- f64::clamp(0.0, 100.0) on the (always integral) volume value. -/
def clampVol (n : Int) : Int := max 0 (min n 100)

/-- DialState::new (src lines 166-180). -/
def DialState.new : DialState :=
  { mode := DialMode.Idle
    last_event_at := none
    volume := 50
    raw_accumulator := 0
    last_print_at := none
    last_printed_volume := 50
    clicking := false
    last_raw_direction := 0
    consistent_direction_count := 0
    pre_backlash_direction := 0
    backlash_accumulator := 0 }

/-- DialState::reset_to_idle (src lines 189-196): set mode to Idle and clear
the accumulator and direction-tracking fields.  Note that volume,
last_printed_volume, clicking and the timestamps are left untouched. -/
def DialState.reset_to_idle (s : DialState) : DialState :=
  { s with
    mode := DialMode.Idle
    raw_accumulator := 0
    last_raw_direction := 0
    consistent_direction_count := 0
    pre_backlash_direction := 0
    backlash_accumulator := 0 }

/-- The notch conversion and print-suppression block (src lines 475-523):
convert whole multiples of 40 raw units in raw_accumulator into volume
units, clamp the volume into [0, 100], buzz on a boundary overshoot, and
print (log + MQTT publish) subject to the suppression rule. -/
def notchPass (s : DialState) (now : Nat) : StepOut :=
  let volume_delta := Int.tdiv s.raw_accumulator 40
  if volume_delta = 0 then
    { state := s, buzzes := 0, emits := [] }
  else
    let s1 : DialState :=
      { s with raw_accumulator := wrap32 (s.raw_accumulator - wrap32 (volume_delta * 40)) }
    let unclamped : Int := s1.volume + volume_delta
    let s2 : DialState := { s1 with volume := clampVol unclamped }
    -- buzz at boundaries: trying to go past 0 or 100 (src lines 484-486)
    let boundaryBuzz : Nat := if unclamped < 0 ∨ 100 < unclamped then 1 else 0
    -- check if we should print (src lines 496-522)
    let current_volume : Int := s2.volume
    let old_tens := Int.tdiv s2.last_printed_volume 10
    let new_tens := Int.tdiv current_volume 10
    let crossed_ten : Bool := old_tens ≠ new_tens
    let time_to_print : Bool :=
      match s2.last_print_at with
      | some t => 250 ≤ now - t
      | none => true
    let volume_changed : Bool := current_volume ≠ s2.last_printed_volume
    if crossed_ten || (volume_changed && time_to_print) then
      { state :=
          { s2 with last_print_at := some now
                    last_printed_volume := current_volume }
        buzzes := boundaryBuzz
        emits := [Emission.volumePrint current_volume] }
    else
      { state := s2, buzzes := boundaryBuzz, emits := [] }

/-- The REL_DIAL arm of the event match (src lines 425-524): the backlash
state machine followed by the notch conversion. -/
def processRotate (s : DialState) (delta : Int) (now : Nat) : StepOut :=
  if s.clicking then
    { state := s, buzzes := 0, emits := [] }
  else
    let direction := Int.sign delta
    -- backlash state machine: track direction changes (src lines 430-448)
    let s1 : DialState :=
      if s.last_raw_direction ≠ 0 ∧ direction ≠ s.last_raw_direction then
        -- direction changed: enter backlash mode
        let withPre : DialState :=
          if s.mode ≠ DialMode.Backlash then
            { s with pre_backlash_direction := s.last_raw_direction }
          else s
        { withPre with
          mode := DialMode.Backlash
          consistent_direction_count := 1
          raw_accumulator := 0
          backlash_accumulator := delta }
      else if direction = s.last_raw_direction then
        let withCount : DialState :=
          { s with consistent_direction_count := (s.consistent_direction_count + 1) % 2 ^ 32 }
        if withCount.mode = DialMode.Backlash then
          { withCount with backlash_accumulator := wrap32 (withCount.backlash_accumulator + delta) }
        else withCount
      else s
    let s2 : DialState := { s1 with last_raw_direction := direction }
    -- exit backlash mode once direction stabilizes (src lines 450-473)
    if s2.mode = DialMode.Backlash then
      if direction = s2.pre_backlash_direction ∧
          BACKLASH_CANCEL_THRESHOLD ≤ s2.consistent_direction_count then
        -- cancel: quietly resume, transfer buffered input, no buzz
        notchPass
          { s2 with mode := DialMode.Active
                    raw_accumulator := s2.backlash_accumulator } now
      else if BACKLASH_THRESHOLD ≤ s2.consistent_direction_count then
        -- confirm: transfer buffered input and buzz
        let out :=
          notchPass
            { s2 with mode := DialMode.Active
                      raw_accumulator := s2.backlash_accumulator } now
        { out with buzzes := out.buzzes + 1 }
      else
        -- remain in backlash: do not process events
        { state := s2, buzzes := 0, emits := [] }
    else
      -- normal mode: accumulate raw input, 40 raw = 1 volume unit
      notchPass
        { s2 with raw_accumulator := wrap32 (s2.raw_accumulator + delta) } now

/-- Processing of one evdev event by the inner for loop (src lines 418-535):
the Idle wake-up and last_event_at update happen for every event, then the
event kind is dispatched. -/
def processEvent (s : DialState) (e : InputEvent) (now : Nat) : StepOut :=
  let s0 : DialState :=
    if s.mode = DialMode.Idle then { s with mode := DialMode.Active } else s
  let s1 : DialState := { s0 with last_event_at := some now }
  match e with
  | InputEvent.rotate delta => processRotate s1 delta now
  | InputEvent.click pressed =>
    if pressed then
      { state := { s1 with clicking := true }, buzzes := 0, emits := [] }
    else if s1.clicking then
      { state := { s1 with clicking := false }
        buzzes := 0
        emits := [Emission.clickPush] }
    else
      { state := s1, buzzes := 0, emits := [] }
  | InputEvent.other => { state := s1, buzzes := 0, emits := [] }

/-- The idle-timeout check performed once per poll iteration (src lines
396-403). -/
def tickIdle (s : DialState) (now : Nat) : DialState :=
  if s.mode = DialMode.Active ∨ s.mode = DialMode.Backlash then
    match s.last_event_at with
    | some t => if IDLE_TIMEOUT ≤ now - t then s.reset_to_idle else s
    | none => s
  else s

/-- Application of one inbound MQTT volume-set command (src lines 378-384):
applied only while Idle; the i32 is clamped into [0, 100] and also becomes
the last printed volume. -/
def mqttSetVolume (s : DialState) (v : Int) : DialState :=
  if s.mode = DialMode.Idle then
    let clamped := clampVol v
    { s with volume := clamped, last_printed_volume := clamped }
  else s

/-- One unit of work of the poll loop, as the state machine sees it: an
input event with its arrival time, an idle-timeout check, or an inbound
MQTT volume-set command. -/
inductive LoopInput
  | ev (e : InputEvent) (now : Nat)
  | tick (now : Nat)
  | mqttSet (v : Int)
deriving DecidableEq, Repr

/-- Apply one loop input to the state, discarding the outputs. -/
def runInput (s : DialState) (i : LoopInput) : DialState :=
  match i with
  | LoopInput.ev e now => (processEvent s e now).state
  | LoopInput.tick now => tickIdle s now
  | LoopInput.mqttSet v => mqttSetVolume s v

/-- Run a whole trace of loop inputs from a state. -/
def run (s : DialState) (is : List LoopInput) : DialState :=
  is.foldl runInput s

/-- Run a whole trace, also accumulating the feedback-trigger count and the
emissions of every step. -/
def runOut (s : DialState) (is : List LoopInput) :
    DialState × Nat × List Emission :=
  is.foldl
    (fun acc i =>
      match i with
      | LoopInput.ev e now =>
        let out := processEvent acc.1 e now
        (out.state, acc.2.1 + out.buzzes, acc.2.2 ++ out.emits)
      | LoopInput.tick now => (tickIdle acc.1 now, acc.2.1, acc.2.2)
      | LoopInput.mqttSet v => (mqttSetVolume acc.1 v, acc.2.1, acc.2.2))
    (s, 0, [])

/-- The volume invariant claimed by the spec: volume always in [0, 100]. -/
def volumeInRange (s : DialState) : Prop := 0 ≤ s.volume ∧ s.volume ≤ 100

/-- The value range of a Rust i32. -/
def i32Range (n : Int) : Prop := -(2 ^ 31) ≤ n ∧ n < 2 ^ 31

/-- Well-formedness of a dial state: every machine-integer field holds a
value of its Rust type's range, directions are signum values, and the
volume fields are within [0, 100].  DialState::new satisfies this and every
operation of the core preserves it, which is the formal content of "all
arithmetic is well-defined and the core never panics" under the wrapping
(release-profile) semantics of the embedding. -/
def WF (s : DialState) : Prop :=
  i32Range s.raw_accumulator ∧
  i32Range s.backlash_accumulator ∧
  (s.last_raw_direction = -1 ∨ s.last_raw_direction = 0 ∨ s.last_raw_direction = 1) ∧
  (s.pre_backlash_direction = -1 ∨ s.pre_backlash_direction = 0 ∨ s.pre_backlash_direction = 1) ∧
  s.consistent_direction_count < 2 ^ 32 ∧
  0 ≤ s.volume ∧ s.volume ≤ 100 ∧
  0 ≤ s.last_printed_volume ∧ s.last_printed_volume ≤ 100

/-- A loop input is well-formed when any rotation delta it carries fits in
an i32, which the evdev input adapter guarantees. -/
def InputWF (i : LoopInput) : Prop :=
  match i with
  | LoopInput.ev (InputEvent.rotate d) _ => i32Range d
  | LoopInput.ev _ _ => True
  | LoopInput.tick _ => True
  | LoopInput.mqttSet v => i32Range v

/-- The emission condition exactly as the claim words it (volume is always
integral, so the rounded volume is the volume itself): the rounded volume
crossed a multiple of 10 relative to the last emitted value (tens bucket
changed), or it differs from the last emitted value and at least 250 ms
elapsed since the last emission, a first-ever emission counting as
elapsed. -/
def specEmitCond (s : DialState) (now : Nat) : Bool :=
  (Int.tdiv s.last_printed_volume 10 != Int.tdiv s.volume 10) ||
  ((s.volume != s.last_printed_volume) &&
    (match s.last_print_at with
     | some t => decide (250 ≤ now - t)
     | none => true))

/-- Concrete trace for the backlash-cancel scenario: one clockwise event,
a reversal with one further counter-clockwise event (2 events buffered),
then a reversal back to clockwise sustained for 5 events, reaching the
cancel threshold. -/
def c4trace : List LoopInput :=
  [LoopInput.ev (InputEvent.rotate 1) 0,
   LoopInput.ev (InputEvent.rotate (-1)) 1,
   LoopInput.ev (InputEvent.rotate (-1)) 2,
   LoopInput.ev (InputEvent.rotate 1) 3,
   LoopInput.ev (InputEvent.rotate 1) 4,
   LoopInput.ev (InputEvent.rotate 1) 5,
   LoopInput.ev (InputEvent.rotate 1) 6,
   LoopInput.ev (InputEvent.rotate 1) 7]

/-- Concrete prefix for the backlash-confirm scenario: one counter-clockwise
event that lowers the volume to 49, then a reversal to clockwise sustained
for 24 events (count 24, 2160 raw units buffered). -/
def c5start : List LoopInput :=
  LoopInput.ev (InputEvent.rotate (-40)) 0 ::
    (List.range 24).map (fun i => LoopInput.ev (InputEvent.rotate 90) (i + 1))

/-- Concrete trace for the emission-suppression scenario: an emission of 51
at time 0, then a suppressed change to 52 at 10 ms. -/
def c7trace : List LoopInput :=
  [LoopInput.ev (InputEvent.rotate 60) 0,
   LoopInput.ev (InputEvent.rotate 40) 10]

/-- A concrete Active state used to witness the idle-reset theorem. -/
def c8state : DialState :=
  { DialState.new with
    mode := DialMode.Active
    last_event_at := some 0
    volume := 73
    raw_accumulator := 12
    last_printed_volume := 73
    last_raw_direction := 1
    consistent_direction_count := 3 }

/-- A concrete Backlash state one event short of the cancel threshold, used
to witness the backlash-cancel theorem. -/
def c4state : DialState :=
  { DialState.new with
    mode := DialMode.Backlash
    last_event_at := some 9
    last_raw_direction := 1
    consistent_direction_count := 4
    pre_backlash_direction := 1
    backlash_accumulator := 4 }

/-- A concrete Backlash state one event short of the confirm threshold, used
to witness the backlash-confirm theorem. -/
def c5state : DialState :=
  { DialState.new with
    mode := DialMode.Backlash
    last_event_at := some 9
    last_raw_direction := -1
    consistent_direction_count := 24
    pre_backlash_direction := 1
    backlash_accumulator := -24 }

/-! ## Helper lemmas -/

theorem clampVol_range (n : Int) : 0 ≤ clampVol n ∧ clampVol n ≤ 100 := by
  unfold clampVol
  omega

theorem wrap32_range (n : Int) : i32Range (wrap32 n) := by
  unfold wrap32 i32Range
  have h1 : 0 ≤ Int.emod (n + 2 ^ 31) (2 ^ 32) := Int.emod_nonneg _ (by norm_num)
  have h2 : Int.emod (n + 2 ^ 31) (2 ^ 32) < 2 ^ 32 := Int.emod_lt_of_pos _ (by norm_num)
  omega

theorem sign_cases (d : Int) : Int.sign d = -1 ∨ Int.sign d = 0 ∨ Int.sign d = 1 := by
  rcases d with (_ | m) | m <;> simp [Int.sign]

theorem tdiv_eq_zero_of_small (a : Int) (h : a.natAbs < 40) : Int.tdiv a 40 = 0 := by
  rcases a with m | m
  · show Int.tdiv (Int.ofNat m) (Int.ofNat 40) = 0
    have hm : m / 40 = 0 := Nat.div_eq_of_lt (by simpa using h)
    simp [Int.tdiv, hm]
  · show Int.tdiv (Int.negSucc m) (Int.ofNat 40) = 0
    have hm : (m + 1) / 40 = 0 := by
      refine Nat.div_eq_of_lt ?_
      simp only [Int.natAbs_negSucc] at h
      omega
    simp [Int.tdiv, hm]

/-- notchPass only touches raw_accumulator, volume and the two print
fields. -/
theorem notchPass_preserves (s : DialState) (now : Nat) :
    (notchPass s now).state.mode = s.mode ∧
    (notchPass s now).state.last_event_at = s.last_event_at ∧
    (notchPass s now).state.clicking = s.clicking ∧
    (notchPass s now).state.last_raw_direction = s.last_raw_direction ∧
    (notchPass s now).state.consistent_direction_count = s.consistent_direction_count ∧
    (notchPass s now).state.pre_backlash_direction = s.pre_backlash_direction ∧
    (notchPass s now).state.backlash_accumulator = s.backlash_accumulator := by
  unfold notchPass
  dsimp only
  split
  · exact ⟨rfl, rfl, rfl, rfl, rfl, rfl, rfl⟩
  · split
    · exact ⟨rfl, rfl, rfl, rfl, rfl, rfl, rfl⟩
    · exact ⟨rfl, rfl, rfl, rfl, rfl, rfl, rfl⟩

/-- notchPass never pushes a click label. -/
theorem notchPass_no_click (s : DialState) (now : Nat) :
    Emission.clickPush ∉ (notchPass s now).emits := by
  unfold notchPass
  dsimp only
  split
  · simp
  · split <;> simp

theorem notchPass_volume (s : DialState) (now : Nat) (h : volumeInRange s) :
    volumeInRange (notchPass s now).state := by
  unfold notchPass
  dsimp only
  split
  · exact h
  · split
    · exact clampVol_range _
    · exact clampVol_range _

theorem processRotate_volume (s : DialState) (delta : Int) (now : Nat)
    (h : volumeInRange s) : volumeInRange (processRotate s delta now).state := by
  unfold processRotate
  dsimp only
  split_ifs <;>
    first
      | exact h
      | exact notchPass_volume _ _ h

theorem processEvent_volume (s : DialState) (e : InputEvent) (now : Nat)
    (h : volumeInRange s) : volumeInRange (processEvent s e now).state := by
  cases e with
  | rotate delta =>
    unfold processEvent
    dsimp only
    split_ifs <;> exact processRotate_volume _ _ _ h
  | click pressed =>
    unfold processEvent
    dsimp only
    split_ifs <;> exact h
  | other =>
    unfold processEvent
    dsimp only
    split_ifs <;> exact h

theorem tickIdle_volume (s : DialState) (now : Nat) (h : volumeInRange s) :
    volumeInRange (tickIdle s now) := by
  unfold tickIdle DialState.reset_to_idle
  split
  · split
    · split <;> exact h
    · exact h
  · exact h

theorem mqttSetVolume_volume (s : DialState) (v : Int) (h : volumeInRange s) :
    volumeInRange (mqttSetVolume s v) := by
  unfold mqttSetVolume
  dsimp only
  split
  · exact clampVol_range _
  · exact h

theorem runInput_volume (s : DialState) (i : LoopInput) (h : volumeInRange s) :
    volumeInRange (runInput s i) := by
  match i with
  | LoopInput.ev e now => exact processEvent_volume _ _ _ h
  | LoopInput.tick now => exact tickIdle_volume _ _ h
  | LoopInput.mqttSet v => exact mqttSetVolume_volume _ _ h

theorem run_volume (is : List LoopInput) (s : DialState) (h : volumeInRange s) :
    volumeInRange (run s is) := by
  induction is generalizing s with
  | nil => exact h
  | cons i is ih => exact ih _ (runInput_volume _ _ h)

theorem processRotate_last_event (s : DialState) (delta : Int) (now : Nat) :
    (processRotate s delta now).state.last_event_at = s.last_event_at := by
  unfold processRotate
  dsimp only
  split_ifs <;>
    first
      | rfl
      | exact (notchPass_preserves _ _).2.1

theorem processRotate_clicking (s : DialState) (delta : Int) (now : Nat) :
    (processRotate s delta now).state.clicking = s.clicking := by
  unfold processRotate
  dsimp only
  split_ifs <;>
    first
      | rfl
      | exact (notchPass_preserves _ _).2.2.1

theorem processRotate_no_click (s : DialState) (delta : Int) (now : Nat) :
    Emission.clickPush ∉ (processRotate s delta now).emits := by
  unfold processRotate
  dsimp only
  split_ifs <;>
    first
      | exact notchPass_no_click _ _
      | simp

/-- While not in Backlash and with no remembered direction, a rotation
leaves the mode unchanged (no reversal can be detected). -/
theorem processRotate_mode_nb (s : DialState) (delta : Int) (now : Nat)
    (hmode : s.mode ≠ DialMode.Backlash) (hdir : s.last_raw_direction = 0) :
    (processRotate s delta now).state.mode = s.mode := by
  unfold processRotate
  dsimp only
  split_ifs <;>
    first
      | rfl
      | exact (notchPass_preserves _ _).1
      | simp_all

theorem notchPass_WF (s : DialState) (now : Nat) (h : WF s) :
    WF (notchPass s now).state := by
  obtain ⟨h1, h2, h3, h4, h5, h6, h7, h8, h9⟩ := h
  unfold notchPass
  dsimp only
  split
  · exact ⟨h1, h2, h3, h4, h5, h6, h7, h8, h9⟩
  · split
    · exact ⟨wrap32_range _, h2, h3, h4, h5, (clampVol_range _).1, (clampVol_range _).2,
        (clampVol_range _).1, (clampVol_range _).2⟩
    · exact ⟨wrap32_range _, h2, h3, h4, h5, (clampVol_range _).1, (clampVol_range _).2, h8, h9⟩

theorem i32Range_zero : i32Range 0 := by
  unfold i32Range
  norm_num

theorem processRotate_WF (s : DialState) (delta : Int) (now : Nat)
    (h : WF s) (hd : i32Range delta) : WF (processRotate s delta now).state := by
  obtain ⟨h1, h2, h3, h4, h5, h6, h7, h8, h9⟩ := h
  have hsign := sign_cases delta
  have hone : (1 : Nat) < 2 ^ 32 := by norm_num
  have hmod : (s.consistent_direction_count + 1) % 2 ^ 32 < 2 ^ 32 :=
    Nat.mod_lt _ (by norm_num)
  unfold processRotate
  dsimp only
  split_ifs <;>
    (try apply notchPass_WF) <;>
    refine ⟨?_, ?_, ?_, ?_, ?_, ?_, ?_, ?_, ?_⟩ <;>
    first
      | exact h1
      | exact h2
      | exact h3
      | exact h4
      | exact h5
      | exact h6
      | exact h7
      | exact h8
      | exact h9
      | exact hd
      | exact hsign
      | exact hone
      | exact hmod
      | exact wrap32_range _
      | exact i32Range_zero

theorem processEvent_WF (s : DialState) (e : InputEvent) (now : Nat)
    (h : WF s)
    (hd : ∀ d, e = InputEvent.rotate d → i32Range d) :
    WF (processEvent s e now).state := by
  obtain ⟨h1, h2, h3, h4, h5, h6, h7, h8, h9⟩ := h
  cases e with
  | rotate delta =>
    unfold processEvent
    dsimp only
    split_ifs <;>
      exact processRotate_WF _ _ _ ⟨h1, h2, h3, h4, h5, h6, h7, h8, h9⟩ (hd delta rfl)
  | click pressed =>
    unfold processEvent
    dsimp only
    split_ifs <;> exact ⟨h1, h2, h3, h4, h5, h6, h7, h8, h9⟩
  | other =>
    unfold processEvent
    dsimp only
    split_ifs <;> exact ⟨h1, h2, h3, h4, h5, h6, h7, h8, h9⟩

theorem tickIdle_WF (s : DialState) (now : Nat) (h : WF s) : WF (tickIdle s now) := by
  obtain ⟨h1, h2, h3, h4, h5, h6, h7, h8, h9⟩ := h
  unfold tickIdle DialState.reset_to_idle
  have hz : (0 : Int) = -1 ∨ (0 : Int) = 0 ∨ (0 : Int) = 1 := Or.inr (Or.inl rfl)
  split
  · split
    · split
      · exact ⟨i32Range_zero, i32Range_zero, hz, hz, by norm_num, h6, h7, h8, h9⟩
      · exact ⟨h1, h2, h3, h4, h5, h6, h7, h8, h9⟩
    · exact ⟨h1, h2, h3, h4, h5, h6, h7, h8, h9⟩
  · exact ⟨h1, h2, h3, h4, h5, h6, h7, h8, h9⟩

theorem mqttSetVolume_WF (s : DialState) (v : Int) (h : WF s) :
    WF (mqttSetVolume s v) := by
  obtain ⟨h1, h2, h3, h4, h5, h6, h7, h8, h9⟩ := h
  unfold mqttSetVolume
  dsimp only
  split
  · exact ⟨h1, h2, h3, h4, h5, (clampVol_range _).1, (clampVol_range _).2,
      (clampVol_range _).1, (clampVol_range _).2⟩
  · exact ⟨h1, h2, h3, h4, h5, h6, h7, h8, h9⟩

theorem runInput_WF (s : DialState) (i : LoopInput) (h : WF s) (hi : InputWF i) :
    WF (runInput s i) := by
  cases i with
  | ev e now =>
    refine processEvent_WF _ _ _ h ?_
    intro d hde
    cases hde
    exact hi
  | tick now => exact tickIdle_WF _ _ h
  | mqttSet v => exact mqttSetVolume_WF _ _ h

theorem run_WF (is : List LoopInput) (s : DialState) (h : WF s)
    (hi : ∀ i ∈ is, InputWF i) : WF (run s is) := by
  induction is generalizing s with
  | nil => exact h
  | cons i is ih =>
    exact ih _ (runInput_WF _ _ h (hi i (List.mem_cons_self i is)))
      (fun j hj => hi j (List.mem_cons_of_mem i hj))

theorem WF_new : WF DialState.new := by
  unfold WF DialState.new i32Range
  norm_num

/-! ## Claims -/

/-- C1: for every sequence of Rotate events (and inbound volume-set
commands, ticks and clicks), the volume stays within [0, 100] after
processing any prefix of the trace ("at every point" follows because every
prefix is itself a trace). -/
theorem c1_volume_always_in_range (inputs : List LoopInput) :
    0 ≤ (run DialState.new inputs).volume ∧ (run DialState.new inputs).volume ≤ 100 :=
  run_volume inputs DialState.new ⟨by decide, by decide⟩

/-- C3 counterexample: a Click(true) at time 0 with no release, followed by
the poll-loop timeout checks at 2.5 s (past the claimed 2 s click timeout)
and at 40 s (past the 30 s idle timeout), leaves clicking == true and emits
nothing; the claim says clicking would be false after 2 s.  There is no
click-timeout mechanism in the code. -/
theorem c3_counterexample :
    (tickIdle (processEvent DialState.new (InputEvent.click true) 0).state 2500).clicking
        = true ∧
    (processEvent DialState.new (InputEvent.click true) 0).emits = [] ∧
    (runOut DialState.new
      [LoopInput.ev (InputEvent.click true) 0, LoopInput.tick 2500,
       LoopInput.tick 40000]).1.clicking = true ∧
    (runOut DialState.new
      [LoopInput.ev (InputEvent.click true) 0, LoopInput.tick 2500,
       LoopInput.tick 40000]).2.2 = [] := by
  decide

/-- C3 (amended): there is no click timeout.  A held click persists under
timeout checks, MQTT volume sets and rotations for any elapsed time; no
click semantic event is emitted by a press, a rotation or a tick (only a
release emits one); the idle reset leaves clicking unchanged. -/
theorem c3_no_click_timeout (s : DialState) (now : Nat) (d v : Int) :
    (tickIdle s now).clicking = s.clicking ∧
    (mqttSetVolume s v).clicking = s.clicking ∧
    (processEvent s (InputEvent.rotate d) now).state.clicking = s.clicking ∧
    Emission.clickPush ∉ (processEvent s (InputEvent.rotate d) now).emits ∧
    (processEvent s (InputEvent.click true) now).state.clicking = true ∧
    (processEvent s (InputEvent.click true) now).emits = [] := by
  refine ⟨?_, ?_, ?_, ?_, ?_, ?_⟩
  · unfold tickIdle DialState.reset_to_idle
    split
    · split
      · split <;> rfl
      · rfl
    · rfl
  · unfold mqttSetVolume
    dsimp only
    split <;> rfl
  · unfold processEvent
    dsimp only
    split_ifs <;> exact processRotate_clicking _ _ _
  · unfold processEvent
    dsimp only
    split_ifs <;> exact processRotate_no_click _ _ _
  · unfold processEvent
    dsimp only
    split_ifs <;> first | rfl | simp_all
  · unfold processEvent
    dsimp only
    split_ifs <;> first | rfl | simp_all

/-- C6: processing any trace of events whose rotation deltas are i32 values
(including 0, i32::MIN = -2^31 and i32::MAX = 2^31 - 1) from the initial
state keeps every machine-integer field in its type's range and the volume
fields in [0, 100]: under the wrapping (release-profile) semantics of the
embedding all arithmetic is total and well-defined, so the core never
panics or aborts. -/
theorem c6_no_panic (inputs : List LoopInput) (h : ∀ i ∈ inputs, InputWF i) :
    WF (run DialState.new inputs) :=
  run_WF inputs DialState.new WF_new h

/-- Witness for C6 at extreme deltas: i32::MAX, i32::MIN and 0. -/
theorem c6_witness :
    WF (run DialState.new
      [LoopInput.ev (InputEvent.rotate (2 ^ 31 - 1)) 0,
       LoopInput.ev (InputEvent.rotate (-2 ^ 31)) 5,
       LoopInput.ev (InputEvent.rotate 0) 6,
       LoopInput.ev (InputEvent.click true) 7,
       LoopInput.mqttSet 500,
       LoopInput.tick 40000]) := by
  apply c6_no_panic
  intro i hi
  fin_cases hi <;>
    first
      | trivial
      | exact ⟨by norm_num, by norm_num⟩

/-- C8: a timeout check at least IDLE_TIMEOUT after the last event, in any
non-Idle state, resets to Idle, clears the accumulator and all
direction-tracking and backlash fields, and leaves volume,
last_printed_volume and clicking unchanged. -/
theorem c8_idle_reset (s : DialState) (now t : Nat)
    (hmode : s.mode ≠ DialMode.Idle)
    (hlast : s.last_event_at = some t)
    (helapsed : IDLE_TIMEOUT ≤ now - t) :
    (tickIdle s now).mode = DialMode.Idle ∧
    (tickIdle s now).raw_accumulator = 0 ∧
    (tickIdle s now).last_raw_direction = 0 ∧
    (tickIdle s now).consistent_direction_count = 0 ∧
    (tickIdle s now).pre_backlash_direction = 0 ∧
    (tickIdle s now).backlash_accumulator = 0 ∧
    (tickIdle s now).volume = s.volume ∧
    (tickIdle s now).last_printed_volume = s.last_printed_volume ∧
    (tickIdle s now).clicking = s.clicking := by
  have hcond : s.mode = DialMode.Active ∨ s.mode = DialMode.Backlash := by
    cases h : s.mode with
    | Idle => exact absurd h hmode
    | Active => exact Or.inl rfl
    | Backlash => exact Or.inr rfl
  unfold tickIdle
  rw [if_pos hcond, hlast]
  dsimp only
  rw [if_pos helapsed]
  exact ⟨rfl, rfl, rfl, rfl, rfl, rfl, rfl, rfl, rfl⟩

/-- Witness for C8 at a concrete Active state at 30 s. -/
theorem c8_witness :
    (tickIdle c8state 30000).mode = DialMode.Idle ∧
    (tickIdle c8state 30000).raw_accumulator = 0 ∧
    (tickIdle c8state 30000).last_raw_direction = 0 ∧
    (tickIdle c8state 30000).consistent_direction_count = 0 ∧
    (tickIdle c8state 30000).pre_backlash_direction = 0 ∧
    (tickIdle c8state 30000).backlash_accumulator = 0 ∧
    (tickIdle c8state 30000).volume = c8state.volume ∧
    (tickIdle c8state 30000).last_printed_volume = c8state.last_printed_volume ∧
    (tickIdle c8state 30000).clicking = c8state.clicking :=
  c8_idle_reset c8state 30000 0 (by decide) (by decide) (by decide)

/-- C9 counterexample: a single rotation of 1200 raw units takes the volume
to 80; the reconnect path (src lines 341-364) then calls reset_to_idle,
after which the volume is still 80 and the state is not DialState::new —
state does persist across a reconnect, contradicting the claim that the
reconnect resets to defaults including the default volume. -/
theorem c9_counterexample :
    ((processEvent DialState.new (InputEvent.rotate 1200) 0).state.reset_to_idle).volume
        = 80 ∧
    ((processEvent DialState.new
        (InputEvent.rotate 1200) 0).state.reset_to_idle).last_printed_volume = 80 ∧
    DialState.new.volume = 50 ∧
    ((processEvent DialState.new (InputEvent.rotate 1200) 0).state.reset_to_idle)
        ≠ DialState.new := by
  decide

/-- C9 (amended): on every device reconnect the core performs an idle reset
of whatever state the run had reached: mode becomes Idle and the
accumulator and direction-tracking fields are cleared, while volume,
last_printed_volume, clicking and the timestamps all persist — the state is
not reset to the daemon-start defaults. -/
theorem c9_reconnect_idle_reset (inputs : List LoopInput) :
    ((run DialState.new inputs).reset_to_idle).mode = DialMode.Idle ∧
    ((run DialState.new inputs).reset_to_idle).raw_accumulator = 0 ∧
    ((run DialState.new inputs).reset_to_idle).last_raw_direction = 0 ∧
    ((run DialState.new inputs).reset_to_idle).consistent_direction_count = 0 ∧
    ((run DialState.new inputs).reset_to_idle).pre_backlash_direction = 0 ∧
    ((run DialState.new inputs).reset_to_idle).backlash_accumulator = 0 ∧
    ((run DialState.new inputs).reset_to_idle).volume = (run DialState.new inputs).volume ∧
    ((run DialState.new inputs).reset_to_idle).last_printed_volume
        = (run DialState.new inputs).last_printed_volume ∧
    ((run DialState.new inputs).reset_to_idle).clicking
        = (run DialState.new inputs).clicking ∧
    ((run DialState.new inputs).reset_to_idle).last_event_at
        = (run DialState.new inputs).last_event_at ∧
    ((run DialState.new inputs).reset_to_idle).last_print_at
        = (run DialState.new inputs).last_print_at :=
  ⟨rfl, rfl, rfl, rfl, rfl, rfl, rfl, rfl, rfl, rfl, rfl⟩

/-- C2 counterexample: a Rotate event arriving in the Idle initial state
transitions to Active and sets last_event_at, but fires zero feedback
triggers, not exactly one — there is no wake buzz in the code. -/
theorem c2_counterexample :
    DialState.new.mode = DialMode.Idle ∧
    (processEvent DialState.new (InputEvent.rotate 1) 0).state.mode = DialMode.Active ∧
    (processEvent DialState.new (InputEvent.rotate 1) 0).state.last_event_at = some 0 ∧
    (processEvent DialState.new (InputEvent.rotate 1) 0).buzzes = 0 ∧
    (processEvent DialState.new (InputEvent.rotate 1) 0).buzzes ≠ 1 := by
  decide

/-- C2 (amended): any event arriving while mode == Idle (with the cleared
direction tracking an idle state always has) transitions the machine to
Active and sets last_event_at to the current time, but the wake-up itself
fires no feedback trigger: processing from Idle is identical to processing
the same event from the same state already in Active mode. -/
theorem c2_no_wake_buzz (s : DialState) (e : InputEvent) (now : Nat)
    (hIdle : s.mode = DialMode.Idle) (hdir : s.last_raw_direction = 0) :
    (processEvent s e now).state.mode = DialMode.Active ∧
    (processEvent s e now).state.last_event_at = some now ∧
    processEvent s e now = processEvent { s with mode := DialMode.Active } e now := by
  refine ⟨?_, ?_, ?_⟩
  · cases e with
    | rotate delta =>
      unfold processEvent
      dsimp only
      rw [if_pos hIdle]
      exact (processRotate_mode_nb _ delta now
        (by exact fun hc => DialMode.noConfusion hc) (by exact hdir)).trans rfl
    | click pressed =>
      unfold processEvent
      dsimp only
      rw [if_pos hIdle]
      all_goals try (split_ifs <;> rfl)
    | other =>
      unfold processEvent
      dsimp only
      rw [if_pos hIdle]
      all_goals try rfl
  · cases e with
    | rotate delta =>
      unfold processEvent
      dsimp only
      rw [if_pos hIdle]
      exact (processRotate_last_event _ delta now).trans rfl
    | click pressed =>
      unfold processEvent
      dsimp only
      rw [if_pos hIdle]
      all_goals try (split_ifs <;> rfl)
    | other =>
      unfold processEvent
      dsimp only
  · unfold processEvent
    dsimp only
    rw [hIdle]
    simp

/-- Witness for C2 (amended) at the initial state and a Rotate event. -/
theorem c2_witness :
    (processEvent DialState.new (InputEvent.rotate 5) 3).state.mode = DialMode.Active ∧
    (processEvent DialState.new (InputEvent.rotate 5) 3).state.last_event_at = some 3 ∧
    processEvent DialState.new (InputEvent.rotate 5) 3
        = processEvent { DialState.new with mode := DialMode.Active } (InputEvent.rotate 5) 3 :=
  c2_no_wake_buzz DialState.new (InputEvent.rotate 5) 3 (by decide) (by decide)

/-- C4 counterexample: the trace +1, -1, -1, +1, +1, +1, +1, +1 is a
reversal (two buffered counter-clockwise units) followed by a reversal back
to the original direction sustained to the cancel threshold.  The cancel
fires zero feedback triggers, but the transferred raw_accumulator is 5 (the
units buffered since the second reversal) while the sum of all deltas
buffered during backlash is -1 + -1 + 1 + 1 + 1 + 1 + 1 = 3: the buffer is
reset at each reversal, so the magnitude buffered before reversing back is
lost, contradicting the claim. -/
theorem c4_counterexample :
    (runOut DialState.new c4trace).2.1 = 0 ∧
    (runOut DialState.new c4trace).1.mode = DialMode.Active ∧
    (runOut DialState.new c4trace).1.raw_accumulator = 5 ∧
    ((-1) + (-1) + 1 + 1 + 1 + 1 + 1 : Int) = 3 ∧
    (runOut DialState.new c4trace).1.raw_accumulator ≠ 3 := by
  decide

/-- C4 (amended): when a Backlash state whose direction has returned to
pre_backlash_direction takes one more same-direction event that reaches the
cancel threshold, the machine silently exits to Active with zero feedback
triggers and no emission, transferring into raw_accumulator exactly
backlash_accumulator plus this event's delta — the sum of the deltas
buffered since the most recent direction reversal (each reversal resets the
buffer, discarding deltas buffered before it).  Stated for transfers below
the notch threshold, where the transferred value is directly observable. -/
theorem c4_backlash_cancel (s : DialState) (delta : Int) (now : Nat)
    (hmode : s.mode = DialMode.Backlash)
    (hclick : s.clicking = false)
    (hdir : Int.sign delta = s.last_raw_direction)
    (hpre : s.last_raw_direction = s.pre_backlash_direction)
    (hcount : BACKLASH_CANCEL_THRESHOLD ≤ (s.consistent_direction_count + 1) % 2 ^ 32)
    (hsmall : (wrap32 (s.backlash_accumulator + delta)).natAbs < 40) :
    (processRotate s delta now).state.mode = DialMode.Active ∧
    (processRotate s delta now).state.raw_accumulator
        = wrap32 (s.backlash_accumulator + delta) ∧
    (processRotate s delta now).state.volume = s.volume ∧
    (processRotate s delta now).buzzes = 0 ∧
    (processRotate s delta now).emits = [] := by
  have hdp : Int.sign delta = s.pre_backlash_direction := hpre ▸ hdir
  unfold processRotate
  dsimp only
  split_ifs <;>
    first
      | (simp_all; done)
      | (unfold notchPass
         dsimp only
         split
         · exact ⟨rfl, rfl, rfl, rfl, rfl⟩
         · exact absurd (tdiv_eq_zero_of_small _ hsmall) (by assumption))

/-- Witness for C4 (amended) at a concrete Backlash state one event short
of the cancel threshold. -/
theorem c4_witness :
    (processRotate c4state 1 10).state.mode = DialMode.Active ∧
    (processRotate c4state 1 10).state.raw_accumulator
        = wrap32 (c4state.backlash_accumulator + 1) ∧
    (processRotate c4state 1 10).state.volume = c4state.volume ∧
    (processRotate c4state 1 10).buzzes = 0 ∧
    (processRotate c4state 1 10).emits = [] :=
  c4_backlash_cancel c4state 1 10 (by decide) (by decide) (by decide) (by decide)
    (by decide) (by decide)

set_option maxRecDepth 10000 in
/-- C5 counterexample: from the initial state, one counter-clockwise event
takes the volume to 49; a clockwise reversal of 90 raw units per event is
then sustained.  At the 25th consecutive clockwise event the machine
confirms and exits Backlash to Active, but fires TWO feedback triggers at
that moment, not exactly one: the confirmation buzz, plus the boundary buzz
because the transferred 2250 raw units convert to +56 volume, overshooting
100. -/
theorem c5_counterexample :
    (run DialState.new c5start).mode = DialMode.Backlash ∧
    (run DialState.new c5start).consistent_direction_count = 24 ∧
    (runOut DialState.new c5start).2.1 = 0 ∧
    (processEvent (run DialState.new c5start) (InputEvent.rotate 90) 25).state.mode
        = DialMode.Active ∧
    (processEvent (run DialState.new c5start) (InputEvent.rotate 90) 25).buzzes = 2 ∧
    (processEvent (run DialState.new c5start) (InputEvent.rotate 90) 25).buzzes ≠ 1 := by
  decide

/-- C5 (amended): when a Backlash state whose direction differs from
pre_backlash_direction takes one more same-direction event making
consistent_direction_count reach BACKLASH_THRESHOLD (25), the machine exits
to Active, transfers the buffered backlash_accumulator (plus this event's
delta) into raw_accumulator, and fires exactly one feedback trigger at that
moment — provided the transferred accumulator stays below the notch
threshold; otherwise the notch conversion runs in the same event and a
boundary overshoot can add a second trigger, as the counterexample shows. -/
theorem c5_backlash_confirm (s : DialState) (delta : Int) (now : Nat)
    (hmode : s.mode = DialMode.Backlash)
    (hclick : s.clicking = false)
    (hdir : Int.sign delta = s.last_raw_direction)
    (hnotpre : s.last_raw_direction ≠ s.pre_backlash_direction)
    (hcount : (s.consistent_direction_count + 1) % 2 ^ 32 = BACKLASH_THRESHOLD)
    (hsmall : (wrap32 (s.backlash_accumulator + delta)).natAbs < 40) :
    (processRotate s delta now).state.mode = DialMode.Active ∧
    (processRotate s delta now).state.raw_accumulator
        = wrap32 (s.backlash_accumulator + delta) ∧
    (processRotate s delta now).state.volume = s.volume ∧
    (processRotate s delta now).buzzes = 1 ∧
    (processRotate s delta now).emits = [] := by
  unfold processRotate
  dsimp only
  split_ifs <;>
    first
      | (simp_all; done)
      | (unfold notchPass
         dsimp only
         split
         · exact ⟨rfl, rfl, rfl, rfl, rfl⟩
         · exact absurd (tdiv_eq_zero_of_small _ hsmall) (by assumption))

/-- Witness for C5 (amended) at a concrete Backlash state one event short
of the confirm threshold. -/
theorem c5_witness :
    (processRotate c5state (-1) 10).state.mode = DialMode.Active ∧
    (processRotate c5state (-1) 10).state.raw_accumulator
        = wrap32 (c5state.backlash_accumulator + (-1)) ∧
    (processRotate c5state (-1) 10).state.volume = c5state.volume ∧
    (processRotate c5state (-1) 10).buzzes = 1 ∧
    (processRotate c5state (-1) 10).emits = [] :=
  c5_backlash_confirm c5state (-1) 10 (by decide) (by decide) (by decide) (by decide)
    (by decide) (by decide)

/-- C7 counterexample: after the c7trace run the volume is 52 while the
last emitted value is 51 (emitted at time 0).  A further Rotate(1) at
300 ms leaves the rounded volume different from the last emitted value with
more than 250 ms elapsed — the claimed condition for emission holds — yet
nothing is emitted, because this event's notch conversion produced a zero
volume delta and the emission check is only reached with a nonzero one. -/
theorem c7_counterexample :
    (run DialState.new c7trace).volume = 52 ∧
    (run DialState.new c7trace).last_printed_volume = 51 ∧
    (run DialState.new c7trace).last_print_at = some 0 ∧
    specEmitCond
        (processEvent (run DialState.new c7trace) (InputEvent.rotate 1) 300).state 300
        = true ∧
    (processEvent (run DialState.new c7trace) (InputEvent.rotate 1) 300).emits = [] := by
  decide

/-- C7 (amended): within the notch conversion and print block, a volume
update is emitted if and only if the notch conversion produced a nonzero
volume delta AND (the rounded volume crossed a multiple of 10 relative to
the last emitted value — its tens bucket changed — OR the rounded volume
differs from the last emitted value and at least 250 ms elapsed since the
last emission, a first-ever emission counting as elapsed); on emission,
last_printed_volume and last_print_at are set to the emitted value and
time.  Events whose notch conversion yields a zero delta emit nothing even
when the suppression condition would allow an emission. -/
theorem c7_emission_iff (s : DialState) (now : Nat) :
    ((notchPass s now).emits ≠ [] ↔
      (Int.tdiv s.raw_accumulator 40 ≠ 0 ∧
        (Int.tdiv s.last_printed_volume 10 ≠
            Int.tdiv (clampVol (s.volume + Int.tdiv s.raw_accumulator 40)) 10 ∨
          (clampVol (s.volume + Int.tdiv s.raw_accumulator 40) ≠ s.last_printed_volume ∧
            ∀ t, s.last_print_at = some t → 250 ≤ now - t)))) ∧
    ((notchPass s now).emits ≠ [] →
      (notchPass s now).state.last_printed_volume
          = clampVol (s.volume + Int.tdiv s.raw_accumulator 40) ∧
      (notchPass s now).state.last_print_at = some now ∧
      (notchPass s now).emits
          = [Emission.volumePrint (clampVol (s.volume + Int.tdiv s.raw_accumulator 40))]) := by
  unfold notchPass
  dsimp only
  by_cases hvd : Int.tdiv s.raw_accumulator 40 = 0
  · rw [if_pos hvd]
    constructor
    · constructor
      · intro hne
        exact absurd rfl hne
      · rintro ⟨hvd2, -⟩
        exact absurd hvd hvd2
    · intro hne
      exact absurd rfl hne
  · rw [if_neg hvd]
    cases hp : s.last_print_at with
    | none =>
      dsimp only
      split
      · rename_i hcond
        simp only [Bool.or_eq_true, Bool.and_eq_true, Bool.and_true,
          decide_eq_true_eq] at hcond
        constructor
        · constructor
          · intro _
            refine ⟨hvd, ?_⟩
            rcases hcond with hcr | hch
            · exact Or.inl hcr
            · exact Or.inr ⟨hch, fun t ht => Option.noConfusion ht⟩
          · intro _
            simp
        · intro _
          exact ⟨rfl, rfl, rfl⟩
      · rename_i hcond
        simp only [Bool.or_eq_true, Bool.and_eq_true, Bool.and_true,
          decide_eq_true_eq, not_or] at hcond
        constructor
        · constructor
          · intro hne
            exact absurd rfl hne
          · rintro ⟨-, hor⟩ -
            rcases hor with hcr | ⟨hch, -⟩
            · exact hcond.1 hcr
            · exact hcond.2 hch
        · intro hne
          exact absurd rfl hne
    | some t =>
      dsimp only
      split
      · rename_i hcond
        simp only [Bool.or_eq_true, Bool.and_eq_true, decide_eq_true_eq] at hcond
        constructor
        · constructor
          · intro _
            refine ⟨hvd, ?_⟩
            rcases hcond with hcr | ⟨hch, hle⟩
            · exact Or.inl hcr
            · refine Or.inr ⟨hch, ?_⟩
              intro t' ht'
              obtain rfl := Option.some.inj ht'
              exact hle
          · intro _
            simp
        · intro _
          exact ⟨rfl, rfl, rfl⟩
      · rename_i hcond
        simp only [Bool.or_eq_true, Bool.and_eq_true, decide_eq_true_eq,
          not_or] at hcond
        constructor
        · constructor
          · intro hne
            exact absurd rfl hne
          · rintro ⟨-, hor⟩ -
            rcases hor with hcr | ⟨hch, hall⟩
            · exact hcond.1 hcr
            · exact hcond.2 ⟨hch, hall t rfl⟩
        · intro hne
          exact absurd rfl hne

/-- C10: the initial state at daemon start has volume 50 (the f64 literal
50.0, an exact integer), last_printed_volume 50, mode Idle, clicking false,
no timestamps, and all accumulators and direction fields zero. -/
theorem c10_initial_state :
    DialState.new.volume = 50 ∧
    DialState.new.last_printed_volume = 50 ∧
    DialState.new.mode = DialMode.Idle ∧
    DialState.new.clicking = false ∧
    DialState.new.raw_accumulator = 0 ∧
    DialState.new.backlash_accumulator = 0 ∧
    DialState.new.last_raw_direction = 0 ∧
    DialState.new.pre_backlash_direction = 0 ∧
    DialState.new.consistent_direction_count = 0 ∧
    DialState.new.last_event_at = none ∧
    DialState.new.last_print_at = none := by
  decide

